import Mathlib

/-!
Verification of the AI hotel receptionist's dialogue manager, entity
extractor and intent classifier against their natural-language specification.

The Python sources (`models/dialogue_manager.py`, `models/entity_extractor.py`,
`models/intent_classifier.py`) are shallowly embedded below:

* Python strings are Lean `String`s; `str.lower()` is a character-wise
  `Char.toLower` (the sources only lower-case ASCII-relevant inputs);
  the substring test `needle in hay` is `substrOf`.
* Python dicts (insertion ordered, unique keys) are association lists; the
  read/write/delete helpers `dlookup`, `dget`, `dgetD`, `dset`, `ddel`
  model `d[k]`, `d.get(k, v)`, `d[k] = v` and `del d[k]`.
* Python floats (the confidence literals `0.95`, `0.7`, `0.1`, `0.5`) are
  rationals; all arithmetic on them in the sources stays exact.
* Fallible code returns `Option`: `none` models an uncaught Python exception.
* External libraries (`phonenumbers`, `re.search` for the classifier's regex
  table, `json.loads`, the OpenAI/Anthropic clients) are abstract parameters;
  claims about control flow are proved for every behaviour of these
  parameters. The three phone-shape regexes of the entity extractor are
  implemented concretely, since claim C7 is about which shapes match.
-/

set_option maxRecDepth 8000

namespace HotelAI

/-- Character-wise lower-casing, modelling `str.lower()` (ASCII range). -/
def pyLower (s : String) : String := ⟨s.data.map Char.toLower⟩

/-- `infixOfAux needle hay`: does `needle` occur contiguously in `hay`? -/
def infixOfAux (needle : List Char) : List Char → Bool
  | [] => needle.isEmpty
  | c :: t => needle.isPrefixOf (c :: t) || infixOfAux needle t

/-- The Python substring test `needle in hay`. -/
def substrOf (needle hay : String) : Bool := infixOfAux needle.data hay.data

/-- Dict read `d.get(key)` returning `Option`. -/
def dlookup {α : Type} (d : List (String × α)) (key : String) : Option α :=
  (d.find? (fun p => p.1 == key)).map (fun p => p.2)

/-- Dict read `d[key]`; every `[]`-access in the embedded sources is on a
present key, so the default is never reached there. -/
def dget {α : Type} [Inhabited α] (d : List (String × α)) (key : String) : α :=
  (dlookup d key).getD default

/-- Dict read with default, `d.get(key, dflt)`. -/
def dgetD {α : Type} (d : List (String × α)) (key : String) (dflt : α) : α :=
  (dlookup d key).getD dflt

/-- Dict write `d[key] = v`: update in place, else append (insertion order). -/
def dset {α : Type} : List (String × α) → String → α → List (String × α)
  | [], key, v => [(key, v)]
  | (k, w) :: t, key, v =>
    if k == key then (key, v) :: t else (k, w) :: dset t key v

/-- Dict delete `del d[key]`. Keys are unique in every dict reachable through
`dset`, so removing every binding of `key` coincides with `del`. -/
def ddel {α : Type} (d : List (String × α)) (key : String) : List (String × α) :=
  d.filter (fun p => !(p.1 == key))

/-! ## DialogueManager (`models/dialogue_manager.py`) -/

/-- The table local to `DialogueManager.detect_language`. -/
def language_keywords : List (String × List String) := [
  ("lv", ["laipni", "jums", "palīdzēt", "viesnīca"]),
  ("ru", ["привет", "помощь", "отель", "номер"]),
  ("hi", ["नमस्ते", "होटल", "कमरा", "मदद"]),
  ("si", ["හෝටලය", "කාමරය", "සහාය"]),
  ("fr", ["bonjour", "hôtel", "chambre", "aide"]),
  ("it", ["ciao", "hotel", "camera", "aiuto"]),
  ("de", ["hotel", "zimmer", "hilfe", "hallo"]),
  ("es", ["hola", "hotel", "habitación", "ayuda"])]

/-- `DialogueManager.detect_language`: first language whose keyword occurs in
the lower-cased text, else `"en"`. -/
def detect_language (text : String) : String :=
  let text_lower := pyLower text
  match language_keywords.find?
      (fun e => e.2.any (fun keyword => substrOf keyword text_lower)) with
  | some e => e.1
  | none => "en"

/-- The intent/keyword table local to `DialogueManager.detect_intent`. -/
def intents : List (String × List String) := [
  ("greeting", ["hello", "hi", "hey", "good morning", "good evening", "greetings", "привет", "हैलो", "hola", "bonjour"]),
  ("room_inquiry", ["room", "rooms", "room types", "what rooms", "types of rooms", "room categories", "номер", "कमरा", "habitación"]),
  ("price_inquiry", ["price", "cost", "how much", "rate", "pricing", "charges", "tariff", "fees", "цена", "कीमत", "precio"]),
  ("room_availability", ["available", "availability", "vacant", "free rooms", "check availability", "any rooms", "доступность"]),
  ("amenities", ["amenities", "facilities", "services", "features", "what do you have", "what\x27s included", "удобства", "सुविधाएं"]),
  ("check_in_out", ["check in", "check out", "timing", "time", "what time", "when can i", "заезд", "выезд"]),
  ("booking", ["book", "reserve", "reservation", "i want to book", "make a booking", "бронировать", "बुक"]),
  ("cancellation", ["cancel", "cancellation policy", "cancel booking", "refund", "отмена", "रद्द"]),
  ("modify_booking", ["change", "modify", "reschedule", "update booking", "change dates", "edit booking", "изменить"]),
  ("breakfast", ["breakfast", "food", "dining", "meal", "завтрак", "नाश्ता"]),
  ("pets", ["pet", "dog", "cat", "animal", "bring pet", "питомец", "पालतू"]),
  ("parking", ["parking", "park", "car", "vehicle", "парковка", "पार्किंग"]),
  ("wifi", ["wifi", "internet", "connection", "интернет", "वाईफाई"]),
  ("payment", ["payment", "pay", "how to pay", "payment method", "deposit", "advance", "оплата", "भुगतान"]),
  ("extra_bed", ["extra bed", "additional bed", "cot", "rollaway", "дополнительная кровать", "अतिरिक्त बिस्तर"]),
  ("child_policy", ["child", "kids", "children", "baby", "infant", "дети", "बच्चे"]),
  ("early_checkin", ["early check in", "arrive early", "before 2 pm", "ранний заезд"]),
  ("late_checkout", ["late check out", "extend stay", "later checkout", "поздний выезд"]),
  ("group_booking", ["group", "multiple rooms", "bulk booking", "5 rooms", "групповое бронирование"]),
  ("long_stay", ["long stay", "extended stay", "weekly", "monthly", "многодневное пребывание"]),
  ("room_features", ["room features", "what\x27s in the room", "room details", "facilities in room"]),
  ("location", ["location", "where", "address", "nearby", "attractions", "местоположение"]),
  ("airport_transfer", ["airport", "pickup", "drop", "shuttle", "transfer", "транспорт"]),
  ("special_occasion", ["birthday", "anniversary", "honeymoon", "celebration", "special occasion"]),
  ("complaint", ["complaint", "problem", "issue", "not happy", "disappointed", "жалоба"]),
  ("discount", ["discount", "offer", "deal", "promotion", "coupon", "скидка", "छूट"])]

/-- Number of keywords of entry `e` occurring in the lower-cased message
(`matches` in `detect_intent`'s loop body). -/
def entryMatches (message_lower : String) (e : String × List String) : Nat :=
  e.2.countP (fun keyword => substrOf keyword message_lower)

/-- One iteration of `detect_intent`'s loop: the accumulator is
`(detected_intent, confidence, max_matches)`. -/
def detectStep (message_lower : String) (acc : String × ℚ × Nat)
    (e : String × List String) : String × ℚ × Nat :=
  let matchCount := entryMatches message_lower e
  if acc.2.2 < matchCount then
    (e.1, min (0.95 : ℚ) (0.7 + (matchCount : ℚ) * 0.1), matchCount)
  else acc

/-- Result type of `detect_intent`. -/
structure IntentResult where
  intent : String
  confidence : ℚ
deriving DecidableEq, Repr

/-- `DialogueManager.detect_intent` (the `language` argument is unused in the
source as well). -/
def detect_intent (message : String) (_language : String) : IntentResult :=
  let message_lower := pyLower message
  let r := intents.foldl (detectStep message_lower)
    ("general_inquiry", (0.5 : ℚ), 0)
  ⟨r.1, r.2.1⟩

/-- `DialogueManager.language_responses`
(`_initialize_language_responses`). -/
def language_responses : List (String × List (String × String)) := [
  ("en", [
    ("greeting", "Welcome to our hotel! How may I assist you today?"),
    ("room_types", "We offer Standard (₹2000), Deluxe (₹3500), and Suite (₹6000) rooms."),
    ("amenities", "Our amenities include: Free WiFi, Swimming Pool, Fitness Center, Restaurant, Spa, and more!"),
    ("check_in", "Check-in time is 2:00 PM and check-out time is 11:00 AM."),
    ("booking_help", "I can help you book a room. Please provide: check-in date, check-out date, room type, and number of guests."),
    ("cancellation", "Free cancellation up to 24 hours before check-in."),
    ("breakfast", "Breakfast is served from 7:00 AM to 10:30 AM."),
    ("pets", "Yes, pets are allowed with an additional charge of ₹500 per night."),
    ("parking", "Yes, we provide free parking for our guests."),
    ("wifi", "Yes, free high-speed WiFi is available throughout the hotel."),
    ("room_availability", "Let me check availability for you. Which dates are you looking at? And which room type would you prefer - Standard, Deluxe, or Suite?"),
    ("price_standard", "Our Standard room is ₹2000 per night. It includes WiFi, TV, AC, and Mini Bar."),
    ("price_deluxe", "Our Deluxe room is ₹3500 per night. It includes all Standard amenities plus a Balcony and Smart TV."),
    ("price_suite", "Our Suite is ₹6000 per night. It includes all Deluxe amenities plus a Kitchenette and Living Room."),
    ("modify_booking", "I can help modify your booking. Please provide your booking reference number and what changes you\x27d like to make."),
    ("cancel_booking", "I can help cancel your booking. Please provide your booking reference number. Note: Free cancellation is available up to 24 hours before check-in."),
    ("room_features", "All our rooms include: Air Conditioning, Free WiFi, Flat-screen TV, Mini Bar, and Daily Housekeeping. Would you like details about a specific room type?"),
    ("early_checkin", "Early check-in is subject to availability. Please let us know your arrival time and we\x27ll do our best to accommodate you. There may be an additional charge."),
    ("late_checkout", "Late check-out is available upon request, subject to availability. There may be an additional charge depending on how late you need."),
    ("group_booking", "For group bookings of 5+ rooms, we offer special rates! Please provide: number of rooms needed, check-in/out dates, and guest count."),
    ("long_stay", "We offer special discounts for stays of 7+ nights! Please share your dates and I\x27ll provide you with our long-stay rates."),
    ("payment_options", "We accept: Cash, Credit Card, Debit Card, UPI, and Net Banking. Payment can be made at check-in or we can send a payment link for advance booking."),
    ("deposit_required", "For confirmed bookings, we require 30% advance payment. The remaining 70% can be paid at check-in."),
    ("extra_bed", "Extra beds are available at ₹800 per night. Maximum 1 extra bed can be added to Deluxe rooms and Suites."),
    ("child_policy", "Children under 5 stay free. Children aged 5-12 are charged 50% of the room rate when using existing bedding."),
    ("room_size", "Standard: 250 sq ft, Deluxe: 400 sq ft, Suite: 650 sq ft. Would you like to know about specific room features?"),
    ("nearest_attractions", "We\x27re located near popular attractions: City Mall (2 km), Beach (5 km), Airport (15 km), Railway Station (3 km)."),
    ("airport_transfer", "Yes, we provide airport shuttle service at ₹500 per trip. Please inform us of your flight details in advance."),
    ("special_occasion", "We\x27d love to make your special occasion memorable! We offer: Birthday decorations (₹1500), Anniversary packages (₹2500), and Honeymoon packages (₹3500)."),
    ("conference_rooms", "We have conference rooms available for business meetings. Rates start at ₹2000 for 4 hours. Includes projector, WiFi, and refreshments."),
    ("loyalty_program", "Join our loyalty program! Earn points on every stay and get exclusive discounts, free upgrades, and special offers."),
    ("covid_safety", "We follow strict COVID-19 safety protocols: Regular sanitization, contactless check-in/out, staff vaccination, and social distancing measures."),
    ("complaint", "I sincerely apologize for any inconvenience. Please share the details and I\x27ll ensure our team addresses your concern immediately. You can also speak to our manager.")]),
  ("lv", [
    ("greeting", "Laipni lūdzam mūsu viesnīcā! Kā es varu jums palīdzēt?"),
    ("room_types", "Mēs piedāvājam Standarta (₹2000), Deluxe (₹3500) un Suite (₹6000) istabas."),
    ("amenities", "Mūsu ērtības ietver: bezmaksas WiFi, baseinu, fitnesa centru, restorānu, spa un vēl!"),
    ("check_in", "Reģistrēšanās laiks ir 14:00, un izrakstīšanās laiks ir 11:00."),
    ("booking_help", "Es varu palīdzēt jums rezervēt istabu. Lūdzu, norādiet: ierašanās datumu, izbraukšanas datumu, istabas tipu un viesu skaitu."),
    ("cancellation", "Bezmaksas atcelšana līdz 24 stundām pirms iebraukšanas."),
    ("room_availability", "Ļaujiet man pārbaudīt pieejamību. Kādus datumus jūs meklējat? Un kādu istabas tipu vēlaties?"),
    ("price_standard", "Mūsu Standarta istaba ir ₹2000 par nakti."),
    ("price_deluxe", "Mūsu Deluxe istaba ir ₹3500 par nakti."),
    ("price_suite", "Mūsu Suite ir ₹6000 par nakti."),
    ("payment_options", "Mēs pieņemam: skaidru naudu, kredītkarti, debetkarti, UPI un interneta banku.")]),
  ("ru", [
    ("greeting", "Добро пожаловать в наш отель! Чем я могу вам помочь?"),
    ("room_types", "Мы предлагаем номера Стандарт (₹2000), Делюкс (₹3500) и Люкс (₹6000)."),
    ("amenities", "Наши удобства включают: бесплатный WiFi, бассейн, фитнес-центр, ресторан, спа и многое другое!"),
    ("check_in", "Время заезда 14:00, время выезда 11:00."),
    ("booking_help", "Я могу помочь вам забронировать номер. Пожалуйста, укажите: дату заезда, дату выезда, тип номера и количество гостей."),
    ("cancellation", "Бесплатная отмена за 24 часа до заезда."),
    ("room_availability", "Позвольте мне проверить наличие. На какие даты вы смотрите? И какой тип номера вы предпочитаете?"),
    ("price_standard", "Наш номер Стандарт стоит ₹2000 за ночь."),
    ("price_deluxe", "Наш номер Делюкс стоит ₹3500 за ночь."),
    ("price_suite", "Наш номер Люкс стоит ₹6000 за ночь."),
    ("payment_options", "Мы принимаем: наличные, кредитные карты, дебетовые карты, UPI и интернет-банкинг.")]),
  ("hi", [
    ("greeting", "हमारे होटल में आपका स्वागत है! मैं आपकी कैसे सहायता कर सकता हूं?"),
    ("room_types", "हम स्टैंडर्ड (₹2000), डीलक्स (₹3500) और सूट (₹6000) कमरे प्रदान करते हैं।"),
    ("amenities", "हमारी सुविधाओं में शामिल हैं: मुफ्त WiFi, स्विमिंग पूल, फिटनेस सेंटर, रेस्तरां, स्पा और बहुत कुछ!"),
    ("check_in", "चेक-इन का समय दोपहर 2:00 बजे और चेक-आउट का समय सुबह 11:00 बजे है।"),
    ("booking_help", "मैं आपको एक कमरा बुक करने में मदद कर सकता हूं। कृपया प्रदान करें: चेक-इन तिथि, चेक-आउट तिथि, कमरे का प्रकार और मेहमानों की संख्या।"),
    ("cancellation", "चेक-इन से 24 घंटे पहले तक मुफ्त रद्दीकरण।"),
    ("room_availability", "मैं आपके लिए उपलब्धता जांचता हूं। आप कौन सी तारीखें देख रहे हैं? और आप कौन सा कमरा पसंद करेंगे?"),
    ("price_standard", "हमारा स्टैंडर्ड कमरा ₹2000 प्रति रात है।"),
    ("price_deluxe", "हमारा डीलक्स कमरा ₹3500 प्रति रात है।"),
    ("price_suite", "हमारा सूट ₹6000 प्रति रात है।"),
    ("payment_options", "हम स्वीकार करते हैं: नकद, क्रेडिट कार्ड, डेबिट कार्ड, UPI और नेट बैंकिंग।")]),
  ("si", [
    ("greeting", "අපගේ හෝටලයට ඔබව සාදරයෙන් පිළිගනිමු! මම ඔබට අද කෙසේ සහාය විය හැකිද?"),
    ("room_types", "අපි සම්මත (₹2000), ඩිලක්ස් (₹3500), සහ සූට් (₹6000) කාමර ලබා දෙමු."),
    ("amenities", "අපගේ පහසුකම් ඇතුළත් වන්නේ: නොමිලේ WiFi, පිහිනුම් තටාකය, යෝග්‍යතා මධ්‍යස්ථානය, අවන්හල, ස්පා සහ තවත් බොහෝ දේ!"),
    ("check_in", "පිවිසීමේ කාලය පස්වරු 2:00 සහ පිටවීමේ කාලය පෙ.ව. 11:00 වේ."),
    ("booking_help", "මට ඔබට කාමරයක් වෙන්කරවා ගැනීමට උදව් කළ හැකිය. කරුණාකර සපයන්න: පිවිසුම් දිනය, පිටවීමේ දිනය, කාමර වර්ගය සහ අමුත්තන් සංඛ්‍යාව."),
    ("cancellation", "පිවිසීමට පැය 24කට පෙර නොමිලේ අවලංගු කිරීම."),
    ("breakfast", "උදෑසන ආහාරය පෙ.ව. 7:00 සිට 10:30 දක්වා සේවය කරනු ලැබේ."),
    ("pets", "ඔව්, සුරතල් සතුන්ට රාත්‍රියකට ₹500 අතිරේක ගාස්තුවක් සමඟ අවසර ඇත."),
    ("parking", "ඔව්, අපි අපගේ අමුත්තන් සඳහා නොමිලේ වාහන නැවැත්වීමේ පහසුකම් සපයන්නෙමු."),
    ("wifi", "ඔව්, නොමිලේ අධිවේගී WiFi මුළු හෝටලය පුරා තිබේ.")]),
  ("fr", [
    ("greeting", "Bienvenue dans notre hôtel! Comment puis-je vous aider aujourd\x27hui?"),
    ("room_types", "Nous proposons des chambres Standard (₹2000), Deluxe (₹3500) et Suite (₹6000)."),
    ("amenities", "Nos équipements comprennent: WiFi gratuit, piscine, centre de fitness, restaurant, spa et plus encore!"),
    ("check_in", "L\x27enregistrement est à 14h00 et le départ à 11h00."),
    ("booking_help", "Je peux vous aider à réserver une chambre. Veuillez fournir: date d\x27arrivée, date de départ, type de chambre et nombre d\x27invités."),
    ("cancellation", "Annulation gratuite jusqu\x27à 24 heures avant l\x27arrivée."),
    ("breakfast", "Le petit-déjeuner est servi de 7h00 à 10h30."),
    ("pets", "Oui, les animaux sont acceptés moyennant un supplément de ₹500 par nuit."),
    ("parking", "Oui, nous offrons un parking gratuit à nos clients."),
    ("wifi", "Oui, le WiFi haut débit gratuit est disponible dans tout l\x27hôtel.")]),
  ("it", [
    ("greeting", "Benvenuti nel nostro hotel! Come posso aiutarla oggi?"),
    ("room_types", "Offriamo camere Standard (₹2000), Deluxe (₹3500) e Suite (₹6000)."),
    ("amenities", "I nostri servizi includono: WiFi gratuito, piscina, centro fitness, ristorante, spa e altro ancora!"),
    ("check_in", "Il check-in è alle 14:00 e il check-out alle 11:00."),
    ("booking_help", "Posso aiutarla a prenotare una camera. Fornisca: data di check-in, data di check-out, tipo di camera e numero di ospiti."),
    ("cancellation", "Cancellazione gratuita fino a 24 ore prima del check-in."),
    ("breakfast", "La colazione viene servita dalle 7:00 alle 10:30."),
    ("pets", "Sì, gli animali domestici sono ammessi con un supplemento di ₹500 a notte."),
    ("parking", "Sì, forniamo parcheggio gratuito per i nostri ospiti."),
    ("wifi", "Sì, WiFi ad alta velocità gratuito è disponibile in tutto l\x27hotel.")]),
  ("de", [
    ("greeting", "Willkommen in unserem Hotel! Wie kann ich Ihnen heute helfen?"),
    ("room_types", "Wir bieten Standard (₹2000), Deluxe (₹3500) und Suite (₹6000) Zimmer an."),
    ("amenities", "Unsere Annehmlichkeiten umfassen: Kostenloses WLAN, Schwimmbad, Fitnesscenter, Restaurant, Spa und mehr!"),
    ("check_in", "Check-in ist um 14:00 Uhr und Check-out um 11:00 Uhr."),
    ("booking_help", "Ich kann Ihnen helfen, ein Zimmer zu buchen. Bitte geben Sie an: Check-in-Datum, Check-out-Datum, Zimmertyp und Anzahl der Gäste."),
    ("cancellation", "Kostenlose Stornierung bis 24 Stunden vor dem Check-in."),
    ("breakfast", "Das Frühstück wird von 7:00 bis 10:30 Uhr serviert."),
    ("pets", "Ja, Haustiere sind gegen einen Aufpreis von ₹500 pro Nacht erlaubt."),
    ("parking", "Ja, wir bieten unseren Gästen kostenlose Parkplätze."),
    ("wifi", "Ja, kostenloses Highspeed-WLAN ist im gesamten Hotel verfügbar.")]),
  ("es", [
    ("greeting", "¡Bienvenido a nuestro hotel! ¿Cómo puedo ayudarle hoy?"),
    ("room_types", "Ofrecemos habitaciones Estándar (₹2000), Deluxe (₹3500) y Suite (₹6000)."),
    ("amenities", "Nuestras comodidades incluyen: WiFi gratis, piscina, gimnasio, restaurante, spa ¡y más!"),
    ("check_in", "El check-in es a las 14:00 y el check-out a las 11:00."),
    ("booking_help", "Puedo ayudarle a reservar una habitación. Por favor proporcione: fecha de entrada, fecha de salida, tipo de habitación y número de huéspedes."),
    ("cancellation", "Cancelación gratuita hasta 24 horas antes del check-in."),
    ("breakfast", "El desayuno se sirve de 7:00 a 10:30."),
    ("pets", "Sí, se permiten mascotas con un cargo adicional de ₹500 por noche."),
    ("parking", "Sí, ofrecemos estacionamiento gratuito para nuestros huéspedes."),
    ("wifi", "Sí, WiFi de alta velocidad gratuito está disponible en todo el hotel.")])]

/-- `DialogueManager.generate_response`. -/
def generate_response (intent : String) (language : String) : String :=
  let responses := dgetD language_responses language (dget language_responses ("en"))
  let response_map : List (String × String) := [
    ("greeting", dget responses ("greeting")),
    ("room_inquiry", dget responses ("room_types")),
    ("price_inquiry", dgetD responses ("price_standard") (dget responses ("room_types")) ++ "\n" ++ dgetD responses ("price_deluxe") ("") ++ "\n" ++ dgetD responses ("price_suite") ("")),
    ("room_availability", dgetD responses ("room_availability") (dget responses ("booking_help"))),
    ("amenities", dget responses ("amenities")),
    ("check_in_out", dget responses ("check_in")),
    ("booking", dget responses ("booking_help")),
    ("cancellation", dget responses ("cancellation")),
    ("modify_booking", dgetD responses ("modify_booking") (dget responses ("booking_help"))),
    ("breakfast", dgetD responses ("breakfast") (dget responses ("amenities"))),
    ("pets", dgetD responses ("pets") (dget responses ("amenities"))),
    ("parking", dgetD responses ("parking") (dget responses ("amenities"))),
    ("wifi", dgetD responses ("wifi") (dget responses ("amenities"))),
    ("payment", dgetD responses ("payment_options") (dget responses ("booking_help"))),
    ("extra_bed", dgetD responses ("extra_bed") (dget responses ("booking_help"))),
    ("child_policy", dgetD responses ("child_policy") (dget responses ("booking_help"))),
    ("early_checkin", dgetD responses ("early_checkin") (dget responses ("check_in"))),
    ("late_checkout", dgetD responses ("late_checkout") (dget responses ("check_in"))),
    ("group_booking", dgetD responses ("group_booking") (dget responses ("booking_help"))),
    ("long_stay", dgetD responses ("long_stay") (dget responses ("booking_help"))),
    ("room_features", dgetD responses ("room_features") (dget responses ("room_types"))),
    ("location", dgetD responses ("nearest_attractions") (dget responses ("greeting"))),
    ("airport_transfer", dgetD responses ("airport_transfer") (dget responses ("amenities"))),
    ("special_occasion", dgetD responses ("special_occasion") (dget responses ("booking_help"))),
    ("complaint", dgetD responses ("complaint") ("I apologize for any inconvenience. How can I help resolve this?")),
    ("discount", dgetD responses ("loyalty_program") (dget responses ("booking_help"))),
    ("general_inquiry", dget responses ("greeting"))]
  dgetD response_map intent (dget responses ("greeting"))

/-- One entry of a session's `history` list (the `datetime.utcnow()` timestamp
is threaded in as a parameter of `process_message`). -/
structure Turn where
  user : String
  agent : String
  intent : String
  timestamp : String
deriving DecidableEq, Repr

/-- The per-session dict stored in `DialogueManager.sessions`. -/
structure Session where
  turn_count : Nat
  language : String
  history : List Turn
deriving DecidableEq, Repr

/-- The mutable state of a `DialogueManager`: its `sessions` dict. -/
structure ManagerState where
  sessions : List (String × Session)
deriving DecidableEq, Repr

/-- A freshly constructed `DialogueManager` (`self.sessions = {}`). -/
def dmInit : ManagerState := ⟨[]⟩

/-- The dict returned by `DialogueManager.process_message`. -/
structure Response where
  message : String
  intent : String
  confidence : ℚ
  language : String
  session_id : String
  turn_count : Nat
  state : String
  missing_slots : List String
deriving DecidableEq, Repr

/-- `DialogueManager.process_message`; `now` stands for the
`datetime.utcnow().isoformat()` timestamp of the turn. -/
def process_message (st : ManagerState) (user_message : String)
    (session_id : String) (now : String) : ManagerState × Response :=
  let language := detect_language user_message
  let intent_data := detect_intent user_message language
  let response_message := generate_response intent_data.intent language
  let sessions :=
    match dlookup st.sessions session_id with
    | none => dset st.sessions session_id ⟨0, language, []⟩
    | some _ => st.sessions
  let s := (dlookup sessions session_id).getD ⟨0, language, []⟩
  let s' : Session := ⟨s.turn_count + 1, s.language,
    s.history ++ [⟨user_message, response_message, intent_data.intent, now⟩]⟩
  (⟨dset sessions session_id s'⟩,
   ⟨response_message, intent_data.intent, intent_data.confidence, language,
    session_id, s.turn_count + 1, "active", []⟩)

/-- `DialogueManager.clear_session`. -/
def clear_session (st : ManagerState) (session_id : String) : ManagerState :=
  ⟨ddel st.sessions session_id⟩

/-- A sequence of `process_message` calls, each given as
`(user_message, session_id, now)`. -/
def run_messages (st : ManagerState) : List (String × String × String) → ManagerState
  | [] => st
  | (m, sid, now) :: rest => run_messages (process_message st m sid now).1 rest

/-- The invariant `turn_count == len(history)` for every stored session. -/
def TurnInv (st : ManagerState) : Prop :=
  ∀ p ∈ st.sessions, p.2.turn_count = p.2.history.length

/-! ## Association-list (dict) lemmas -/

theorem dlookup_cons {α : Type} (k' : String) (w : α) (t : List (String × α))
    (k : String) :
    dlookup ((k', w) :: t) k = if k' == k then some w else dlookup t k := by
  simp only [dlookup, List.find?]
  cases h : k' == k <;> simp [h]

theorem dlookup_dset_self {α : Type} (l : List (String × α)) (k : String)
    (v : α) : dlookup (dset l k v) k = some v := by
  induction l with
  | nil => simp [dset, dlookup_cons]
  | cons p t ih =>
    obtain ⟨k', w⟩ := p
    simp only [dset]
    by_cases h : (k' == k) = true
    · rw [if_pos h, dlookup_cons]; simp
    · rw [if_neg h, dlookup_cons, if_neg h]; exact ih

theorem mem_dset {α : Type} {p : String × α} :
    ∀ {l : List (String × α)} {k : String} {v : α},
      p ∈ dset l k v → p = (k, v) ∨ p ∈ l := by
  intro l
  induction l with
  | nil => intro k v hp; simpa [dset] using hp
  | cons q t ih =>
    intro k v hp
    obtain ⟨k', w⟩ := q
    simp only [dset] at hp
    by_cases h : (k' == k) = true
    · rw [if_pos h] at hp
      rcases List.mem_cons.mp hp with h1 | h1
      · exact Or.inl h1
      · exact Or.inr (List.mem_cons_of_mem _ h1)
    · rw [if_neg h] at hp
      rcases List.mem_cons.mp hp with h1 | h1
      · exact Or.inr (h1 ▸ List.mem_cons_self _ _)
      · rcases ih h1 with h2 | h2
        · exact Or.inl h2
        · exact Or.inr (List.mem_cons_of_mem _ h2)

theorem dlookup_mem {α : Type} {l : List (String × α)} {k : String} {v : α}
    (h : dlookup l k = some v) : (k, v) ∈ l := by
  induction l with
  | nil => simp [dlookup] at h
  | cons q t ih =>
    obtain ⟨k', w⟩ := q
    rw [dlookup_cons] at h
    by_cases hk : (k' == k) = true
    · rw [if_pos hk] at h
      have hkk : k' = k := by simpa using hk
      have hv : w = v := by simpa using h
      subst hkk; subst hv
      exact List.mem_cons_self _ _
    · rw [if_neg hk] at h
      exact List.mem_cons_of_mem _ (ih h)

theorem dlookup_ddel_self {α : Type} (l : List (String × α)) (k : String) :
    dlookup (ddel l k) k = none := by
  simp only [dlookup, ddel, Option.map_eq_none']
  rw [List.find?_eq_none]
  intro x hx
  simp only [List.mem_filter] at hx
  simpa using hx.2

theorem ddel_of_lookup_none {α : Type} (l : List (String × α)) (k : String)
    (h : dlookup l k = none) : ddel l k = l := by
  simp only [dlookup, Option.map_eq_none'] at h
  rw [List.find?_eq_none] at h
  unfold ddel
  rw [List.filter_eq_self]
  intro p hp
  simpa using h p hp

/-! ## `process_message` lemmas -/

theorem process_message_turn_none {st : ManagerState} {m sid now : String}
    (h : dlookup st.sessions sid = none) :
    (process_message st m sid now).2.turn_count = 1 := by
  simp [process_message, h, dlookup_dset_self]

theorem process_message_turn_some {st : ManagerState} {m sid now : String}
    {s : Session} (h : dlookup st.sessions sid = some s) :
    (process_message st m sid now).2.turn_count = s.turn_count + 1 := by
  simp [process_message, h]

theorem process_lookup_turn (st : ManagerState) (m sid now : String) :
    (dlookup (process_message st m sid now).1.sessions sid).map Session.turn_count
      = some ((process_message st m sid now).2.turn_count) := by
  rcases hq : dlookup st.sessions sid with _ | s <;>
    simp [process_message, hq, dlookup_dset_self]

theorem process_lang_none {st : ManagerState} {m sid now : String}
    (h : dlookup st.sessions sid = none) :
    (dlookup (process_message st m sid now).1.sessions sid).map Session.language
      = some (detect_language m) := by
  simp [process_message, h, dlookup_dset_self]

theorem process_lang_some {st : ManagerState} {m sid now : String} {s : Session}
    (h : dlookup st.sessions sid = some s) :
    (dlookup (process_message st m sid now).1.sessions sid).map Session.language
      = some s.language := by
  simp [process_message, h, dlookup_dset_self]

theorem turnInv_process {st : ManagerState} (h : TurnInv st)
    (m sid now : String) : TurnInv (process_message st m sid now).1 := by
  intro p hp
  rcases hq : dlookup st.sessions sid with _ | s
  · simp only [process_message, hq, dlookup_dset_self, Option.getD_some] at hp
    rcases mem_dset hp with h1 | h1
    · subst h1; simp
    · rcases mem_dset h1 with h2 | h2
      · subst h2; rfl
      · exact h p h2
  · simp only [process_message, hq, Option.getD_some] at hp
    rcases mem_dset hp with h1 | h1
    · subst h1
      have hs : s.turn_count = s.history.length := h (sid, s) (dlookup_mem hq)
      simp [hs]
    · exact h p h1

theorem turnInv_run {st : ManagerState} (h : TurnInv st) :
    ∀ msgs : List (String × String × String), TurnInv (run_messages st msgs) := by
  intro msgs
  induction msgs generalizing st with
  | nil => exact h
  | cons e rest ih =>
    obtain ⟨m, sid, now⟩ := e
    exact ih (turnInv_process h m sid now)

/-! ## Characterisation of `detect_intent`'s loop -/

/-- The greatest keyword-match count over the entries of `L`
("the intent with the most matches" in the spec). -/
def maxMatches (message_lower : String) (L : List (String × List String)) : Nat :=
  L.foldr (fun e n => max (entryMatches message_lower e) n) 0

theorem maxMatches_cons (ml : String) (e : String × List String)
    (t : List (String × List String)) :
    maxMatches ml (e :: t) = max (entryMatches ml e) (maxMatches ml t) := rfl

/-- `detect_intent`'s loop, run from an arbitrary accumulator `(i, c, m)`:
if every entry scores at most `m` the accumulator survives; otherwise the
result is the first entry (in enumeration order) attaining the maximal
score, with the confidence formula applied to that score. -/
theorem foldl_detectStep_char (ml : String) (L : List (String × List String)) :
    ∀ (i : String) (c : ℚ) (m : Nat),
      (maxMatches ml L ≤ m → L.foldl (detectStep ml) (i, c, m) = (i, c, m)) ∧
      (m < maxMatches ml L → ∀ e₀,
        L.find? (fun e => entryMatches ml e == maxMatches ml L) = some e₀ →
        L.foldl (detectStep ml) (i, c, m) =
          (e₀.1, min (0.95 : ℚ) (0.7 + (maxMatches ml L : ℚ) * 0.1),
            maxMatches ml L)) := by
  induction L with
  | nil =>
    intro i c m
    refine ⟨fun _ => rfl, fun h => ?_⟩
    simp [maxMatches] at h
  | cons e t ih =>
    intro i c m
    constructor
    · intro hle
      rw [maxMatches_cons] at hle
      have h1 : entryMatches ml e ≤ m := le_trans (le_max_left _ _) hle
      have h2 : maxMatches ml t ≤ m := le_trans (le_max_right _ _) hle
      have hstep : detectStep ml (i, c, m) e = (i, c, m) := by
        simp only [detectStep]
        rw [if_neg (by exact Nat.not_lt.mpr h1)]
      rw [List.foldl_cons, hstep]
      exact (ih i c m).1 h2
    · intro hlt e₀ hfind
      by_cases he : entryMatches ml e = maxMatches ml (e :: t)
      · have hp : (fun e' => entryMatches ml e' == maxMatches ml (e :: t)) e
            = true := by simpa using he
        have hfe : List.find?
            (fun e' => entryMatches ml e' == maxMatches ml (e :: t)) (e :: t)
            = some e := List.find?_cons_of_pos _ hp
        have he₀ : e = e₀ := by rw [hfe] at hfind; exact Option.some.inj hfind
        subst he₀
        have hm : m < entryMatches ml e := he ▸ hlt
        have hstep : detectStep ml (i, c, m) e =
            (e.1, min (0.95 : ℚ) (0.7 + (entryMatches ml e : ℚ) * 0.1),
              entryMatches ml e) := by
          simp only [detectStep]
          rw [if_pos hm]
        have hmt : maxMatches ml t ≤ entryMatches ml e := by
          rw [he, maxMatches_cons]
          exact le_max_right _ _
        rw [List.foldl_cons, hstep, ← he]
        exact (ih _ _ _).1 hmt
      · have hMt : maxMatches ml (e :: t) = maxMatches ml t := by
          rcases max_choice (entryMatches ml e) (maxMatches ml t) with h1 | h1
          · exact absurd (by rw [maxMatches_cons, h1]) he
          · rw [maxMatches_cons, h1]
        have hp : ¬((fun e' => entryMatches ml e' == maxMatches ml (e :: t)) e
            = true) := by simpa using he
        have hfe : List.find?
            (fun e' => entryMatches ml e' == maxMatches ml (e :: t)) (e :: t)
            = List.find?
              (fun e' => entryMatches ml e' == maxMatches ml (e :: t)) t :=
          List.find?_cons_of_neg _ hp
        rw [hfe, hMt] at hfind
        rw [hMt] at hlt
        have hle : entryMatches ml e ≤ maxMatches ml t := by
          rw [← hMt, maxMatches_cons]
          exact le_max_left _ _
        have hlt' : entryMatches ml e < maxMatches ml t :=
          lt_of_le_of_ne hle (by rw [← hMt]; exact he)
        by_cases hm : m < entryMatches ml e
        · have hstep : detectStep ml (i, c, m) e =
              (e.1, min (0.95 : ℚ) (0.7 + (entryMatches ml e : ℚ) * 0.1),
                entryMatches ml e) := by
            simp only [detectStep]
            rw [if_pos hm]
          rw [List.foldl_cons, hstep, hMt]
          exact (ih _ _ _).2 hlt' e₀ hfind
        · have hstep : detectStep ml (i, c, m) e = (i, c, m) := by
            simp only [detectStep]
            rw [if_neg hm]
          rw [List.foldl_cons, hstep, hMt]
          exact (ih _ _ _).2 hlt e₀ hfind

/-! ## EntityExtractor (`models/entity_extractor.py`) -/

/-- A Python value passed to `validate_entity` (`value: Any`; the extractor
produces strings and ints). -/
inductive PyVal where
  | pstr (s : String)
  | pint (n : Int)
deriving DecidableEq, Repr

/-- Python `str(value)`. -/
def pyStr : PyVal → String
  | .pstr s => s
  | .pint n => toString n

/-- ASCII whitespace, the relevant part of what `str.strip()` removes. -/
def isPyWS (c : Char) : Bool :=
  c == ' ' || c == '\t' || c == '\n' || c == '\r' || c == '\x0b' || c == '\x0c'

/-- Python `s.strip()`. -/
def pyStrip (s : String) : String :=
  ⟨((s.data.dropWhile isPyWS).reverse.dropWhile isPyWS).reverse⟩

/-- Decimal value of a non-empty all-digit character list, else `none`. -/
def digitsToNat? (l : List Char) : Option Nat :=
  if l.isEmpty then none
  else l.foldl (fun acc c =>
    match acc with
    | none => none
    | some a => if c.isDigit then some (a * 10 + (c.toNat - 48)) else none)
    (some 0)

/-- Python `int(value)`; `none` models the `ValueError` raised on a
non-numeric string. ASCII decimal with optional sign and surrounding
whitespace (CPython's underscore separators and non-ASCII digits are not
needed for the inputs considered). -/
def pyInt : PyVal → Option Int
  | .pint n => some n
  | .pstr s =>
    match (pyStrip s).data with
    | '-' :: rest => (digitsToNat? rest).map (fun n => -(n : Int))
    | '+' :: rest => (digitsToNat? rest).map (fun n => (n : Int))
    | l => (digitsToNat? l).map (fun n => (n : Int))

/-- A Python `datetime`: a calendar date plus the microseconds elapsed since
midnight (hour/minute/second/microsecond collapsed into one integer, which
preserves the lexicographic `datetime` order; `datetime` stores integral
microseconds). -/
structure PyDateTime where
  year : Nat
  month : Nat
  day : Nat
  usec : Nat
deriving DecidableEq, Repr

/-- `datetime` comparison `a <= b` (lexicographic on the components). -/
def dtLe (a b : PyDateTime) : Bool :=
  if a.year = b.year then
    if a.month = b.month then
      if a.day = b.day then decide (a.usec ≤ b.usec)
      else decide (a.day < b.day)
    else decide (a.month < b.month)
  else decide (a.year < b.year)

def isLeap (y : Nat) : Bool :=
  (y % 4 == 0 && !(y % 100 == 0)) || y % 400 == 0

def daysInMonth (y m : Nat) : Nat :=
  if m == 2 then (if isLeap y then 29 else 28)
  else if m == 4 || m == 6 || m == 9 || m == 11 then 30
  else 31

/-- Split a character list at every dash (the shape of `"%Y-%m-%d"`). -/
def splitDash : List Char → List (List Char)
  | [] => [[]]
  | c :: t =>
    if c == '-' then [] :: splitDash t
    else
      match splitDash t with
      | h :: r => (c :: h) :: r
      | [] => [[c]]

/-- `datetime.strptime(s, "%Y-%m-%d")`, reduced to its success/value
behaviour: `%Y` reads up to 4 digits, `%m` and `%d` up to 2, the separators
are literal dashes, nothing may be left over, and the components must form a
valid proleptic-Gregorian date (year at least 1). `none` models
`ValueError`. -/
def strptimeYMD (s : String) : Option (Nat × Nat × Nat) :=
  match splitDash s.data with
  | [ys, ms, ds] =>
    match digitsToNat? ys, digitsToNat? ms, digitsToNat? ds with
    | some y, some m, some d =>
      if ys.length ≤ 4 && ms.length ≤ 2 && ds.length ≤ 2
          && 1 ≤ y && 1 ≤ m && m ≤ 12 && 1 ≤ d && d ≤ daysInMonth y m then
        some (y, m, d)
      else none
    | _, _, _ => none
  | _ => none

/-- Helper for `emailBasicMatch`: does `[^@]+\.[^@]+` match a prefix of `l`,
where `seen` records whether at least one character was already consumed for
the leading `[^@]+`? -/
def emailTailAux : Bool → List Char → Bool
  | _, [] => false
  | seen, c :: t =>
    if c == '@' then false
    else if seen && c == '.'
        && (match t with | d :: _ => !(d == '@') | [] => false) then true
    else emailTailAux true t

/-- `re.match(r"[^@]+@[^@]+\.[^@]+", s) is not None`: a prefix of `s` of the
shape `a@b.c` with `a`, `b`, `c` non-empty and free of `@`. -/
def emailBasicMatch (s : String) : Bool :=
  match s.data.dropWhile (fun c => !(c == '@')) with
  | _ :: rest =>
    !(s.data.takeWhile (fun c => !(c == '@'))).isEmpty && emailTailAux false rest
  | [] => false

/-- `EntityExtractor.validate_entity`. The wall clock `datetime.now()` is the
explicit argument `now`; a result of `none` models an uncaught exception
(`int("abc")` raises `ValueError`; `re.match` on an `int` raises
`TypeError`; the date branch catches its exceptions and returns `False`). -/
def validate_entity (entity_type : String) (value : PyVal)
    (now : PyDateTime) : Option Bool :=
  if entity_type == "phone_number" then
    some (decide (10 ≤ ((pyStr value).data.filter Char.isDigit).length))
  else if entity_type == "email" then
    match value with
    | .pstr s => some (emailBasicMatch s)
    | .pint _ => none
  else if ["check_in_date", "check_out_date", "reservation_date",
      "event_date"].contains entity_type then
    some (match value with
      | .pint _ => false
      | .pstr s =>
        match strptimeYMD s with
        | none => false
        | some (y, m, d) => dtLe now ⟨y, m, d, 0⟩)
  else if entity_type == "guest_count" then
    (pyInt value).map (fun n => decide (1 ≤ n ∧ n ≤ 100))
  else if entity_type == "duration" then
    (pyInt value).map (fun n => decide (1 ≤ n ∧ n ≤ 24))
  else some true

/-! ### The three phone-shape regexes and `_extract_phone` -/

/-- ASCII approximation of `re`'s `\w` class. -/
def isWordChar (c : Char) : Bool := c.isAlphanum || c == '_'

/-- ASCII approximation of `re`'s `\s` class. -/
def isReSpace (c : Char) : Bool :=
  c == ' ' || c == '\t' || c == '\n' || c == '\x0b' || c == '\x0c' || c == '\r'

/-- Exactly `n` digits at the head: `(matched, rest)`. -/
def takeDigits : Nat → List Char → Option (List Char × List Char)
  | 0, s => some ([], s)
  | _ + 1, [] => none
  | n + 1, c :: t =>
    if c.isDigit then (takeDigits n t).map (fun p => (c :: p.1, p.2)) else none

/-- `\b` after a digit run: end of input or a non-word character next. -/
def boundaryAfter : List Char → Bool
  | [] => true
  | c :: _ => !isWordChar c

/-- `\d{10}\b` at the head. -/
def digits10b (s : List Char) : Option (List Char) :=
  match takeDigits 10 s with
  | some (m, rest) => if boundaryAfter rest then some m else none
  | none => none

/-- `\b\d{10}\b` at the head; `prevWord` says whether the character before
the current position is a word character (for the leading `\b`). -/
def phonePat1At (prevWord : Bool) (s : List Char) : Option (List Char) :=
  if prevWord then none else digits10b s

/-- `\d{1,3}[\s-]?\d{10}\b` at the head, in the regex engine's greedy
backtracking order (3, 2, then 1 leading digits; separator kept, then
dropped). -/
def phonePat2Core (s : List Char) : Option (List Char) :=
  let withK := fun (k : Nat) =>
    match takeDigits k s with
    | none => none
    | some (m1, r1) =>
      let withSep :=
        match r1 with
        | c :: r2 =>
          if isReSpace c || c == '-' then
            (digits10b r2).map (fun m2 => m1 ++ c :: m2)
          else none
        | [] => none
      match withSep with
      | some m => some m
      | none => (digits10b r1).map (fun m2 => m1 ++ m2)
  match withK 3 with
  | some m => some m
  | none =>
    match withK 2 with
    | some m => some m
    | none => withK 1

/-- `\+?\d{1,3}[\s-]?\d{10}\b` at the head. -/
def phonePat2At (_prevWord : Bool) (s : List Char) : Option (List Char) :=
  match s with
  | '+' :: r =>
    (match phonePat2Core r with
     | some m => some ('+' :: m)
     | none => phonePat2Core ('+' :: r))
  | _ => phonePat2Core s

/-- The `[-.\s]` separator class of the third pattern. -/
def isSep3 (c : Char) : Bool := c == '-' || c == '.' || isReSpace c

/-- `\d{4}\b` at the head. -/
def digits4b (s : List Char) : Option (List Char) :=
  match takeDigits 4 s with
  | some (m, rest) => if boundaryAfter rest then some m else none
  | none => none

/-- `\d{3}[-.\s]?\d{4}\b` at the head. -/
def phonePat3Tail (s : List Char) : Option (List Char) :=
  match takeDigits 3 s with
  | none => none
  | some (m2, r2) =>
    let withSep :=
      match r2 with
      | c :: r3 =>
        if isSep3 c then (digits4b r3).map (fun m3 => m2 ++ c :: m3) else none
      | [] => none
    match withSep with
    | some m => some m
    | none => (digits4b r2).map (fun m3 => m2 ++ m3)

/-- `\d{3}[-.\s]?\d{3}[-.\s]?\d{4}\b` at the head. -/
def phonePat3At (_prevWord : Bool) (s : List Char) : Option (List Char) :=
  match takeDigits 3 s with
  | none => none
  | some (m1, r1) =>
    let withSep :=
      match r1 with
      | c :: r2 =>
        if isSep3 c then (phonePat3Tail r2).map (fun m => m1 ++ c :: m)
        else none
      | [] => none
    match withSep with
    | some m => some m
    | none => (phonePat3Tail r1).map (fun m => m1 ++ m)

/-- `re.search`: try the pattern matcher at each position left to right,
tracking whether the previous character is a word character; the result is
`match.group(0)`. -/
def searchAux (matchAt : Bool → List Char → Option (List Char)) :
    Bool → List Char → Option (List Char)
  | prevWord, s =>
    match matchAt prevWord s with
    | some m => some m
    | none =>
      match s with
      | [] => none
      | c :: t => searchAux matchAt (isWordChar c) t

/-- `re.search(pattern, text)` for one of the phone patterns. -/
def searchPhone (matchAt : Bool → List Char → Option (List Char))
    (text : String) : Option String :=
  (searchAux matchAt false text.data).map (fun l => ⟨l⟩)

/-- `re.sub(r'\D', '', phone)`. -/
def digitsOnly (s : String) : String := ⟨s.data.filter Char.isDigit⟩

/-- The `phonenumbers` library, abstract over its parsed-number type:
`parse` (against region `"IN"`) returns `none` when it raises
`NumberParseException`; `format_e164` is `format_number(·, E164)`. -/
structure PhoneLib (α : Type) where
  parse : String → Option α
  is_valid_number : α → Bool
  format_e164 : α → String

/-- The pattern loop of `_extract_phone`: on a match, return the E.164 form
when the parse succeeds and validates; return the digits-only form when the
parse raises (the `except` branch); otherwise no `return` is executed and
the loop falls through to the next pattern. -/
def tryPhonePatterns {α : Type} (lib : PhoneLib α) (text : String) :
    List (Bool → List Char → Option (List Char)) → Option String
  | [] => none
  | p :: rest =>
    match searchPhone p text with
    | none => tryPhonePatterns lib text rest
    | some phone =>
      match lib.parse phone with
      | none => some (digitsOnly phone)
      | some parsed =>
        if lib.is_valid_number parsed then some (lib.format_e164 parsed)
        else tryPhonePatterns lib text rest

/-- `EntityExtractor._extract_phone`. -/
def extract_phone {α : Type} (lib : PhoneLib α) (text : String) :
    Option String :=
  tryPhonePatterns lib text [phonePat1At, phonePat2At, phonePat3At]

/-! ## IntentClassifier (`models/intent_classifier.py`) -/

/-- A JSON value as produced by `json.loads`. -/
inductive PyJson where
  | obj (fields : List (String × PyJson))
  | arr (elems : List PyJson)
  | str (s : String)
  | num (q : ℚ)
  | bool (b : Bool)
  | null

/-- The assignment `result["method"] = "ai-based"` succeeds only on a dict. -/
def isJsonObj : PyJson → Bool
  | .obj _ => true
  | _ => false

/-- The dict returned by `_classify_with_ai`'s `except` branch. -/
def information_request_error_fallback : List (String × PyJson) :=
  [("intent", PyJson.str ("information_request")),
   ("confidence", PyJson.num 0.5),
   ("method", PyJson.str ("error_fallback"))]

/-- The dict returned by `classify` when no rule matched and no backend is
configured. -/
def information_request_fallback : List (String × PyJson) :=
  [("intent", PyJson.str ("information_request")),
   ("confidence", PyJson.num 0.5),
   ("method", PyJson.str ("fallback"))]

/-- `IntentClassifier.INTENT_PATTERNS` (the regex sources, kept verbatim;
their matching behaviour is the abstract `research` oracle below). -/
def INTENT_PATTERNS : List (String × List String) := [
  ("greeting", ["\\b(hello|hi|hey|good\\s+(morning|afternoon|evening)|namaste|vanakkam)\\b", "\\b(नमस्ते|हॅलो)\\b", "\\b(வணக்கம்|ஹலோ)\\b"]),
  ("room_booking", ["\\b(book|reserve|want|need)\\s+(a\\s+)?(room|accommodation)\\b", "\\b(room|कमरा|அறை)\\s+(booking|बुकिंग|பதிவு)\\b", "\\b(check\\s+in|stay)\\b"]),
  ("room_inquiry", ["\\b(available|availability)\\s+(room|कमरा)\\b", "\\b(room\\s+)?(types|price|rate|cost)\\b", "\\b(what|which|how much)\\s+(rooms|room)\\b"]),
  ("dining_reservation", ["\\b(dining|dinner|lunch|breakfast|restaurant)\\s+(reservation|booking)\\b", "\\b(table|reserve|book)\\s+(for\\s+)?(dinner|lunch|breakfast)\\b", "\\b(भोजन|खाना)\\s+(बुकिंग)\\b"]),
  ("event_booking", ["\\b(party\\s+hall|event\\s+hall|conference\\s+room|banquet)\\b", "\\b(book|rent|need)\\s+(hall|venue)\\b", "\\b(wedding|birthday|corporate)\\s+(event|party)\\b"]),
  ("information_request", ["\\b(tell\\s+me|information|details|know)\\s+(about)\\b", "\\b(what|where|when|how)\\s+(is|are|do|does)\\b", "\\b(amenities|facilities|services)\\b", "\\b(check\\s+in|check\\s+out)\\s+(time|timing)\\b"]),
  ("booking_modification", ["\\b(change|modify|cancel|update)\\s+(my\\s+)?(booking|reservation)\\b", "\\b(reschedule|postpone)\\b"]),
  ("complaint", ["\\b(complaint|problem|issue|not\\s+happy|disappointed|terrible|bad)\\b", "\\b(शिकायत|समस्या)\\b"]),
  ("farewell", ["\\b(bye|goodbye|thanks|thank\\s+you|धन्यवाद)\\b"])]

/-- `IntentClassifier._classify_with_ai`, abstracted over the outcome of the
API call (`apiResponse = none` models an exception while obtaining
`content`: network error, timeout, missing attribute) and over `json.loads`
(`jsonParse c = none` models `json.JSONDecodeError`). The `try` block
produces `none` exactly when one of its steps raises (including the
`result["method"]` assignment on a non-dict); the `except` branch then
returns the fixed error fallback. -/
def classify_with_ai (apiResponse : Option String)
    (jsonParse : String → Option PyJson) : List (String × PyJson) :=
  let tryBlock : Option (List (String × PyJson)) :=
    match apiResponse with
    | none => none
    | some content =>
      match jsonParse (pyStrip content) with
      | none => none
      | some j =>
        match j with
        | .obj fields => some (dset fields ("method") (PyJson.str ("ai-based")))
        | _ => none
  match tryBlock with
  | some r => r
  | none => information_request_error_fallback

/-- `IntentClassifier.classify`, abstracted over the regex engine
(`research p t` stands for `re.search(p, t, re.IGNORECASE) is not None`),
over whether an AI backend is configured (`self.use_ai`), and over the
backend outcome (see `classify_with_ai`). -/
def classify (research : String → String → Bool) (use_ai : Bool)
    (apiResponse : Option String) (jsonParse : String → Option PyJson)
    (text : String) : List (String × PyJson) :=
  let text_lower := pyLower text
  match INTENT_PATTERNS.find?
      (fun e => e.2.any (fun p => research p text_lower)) with
  | some e =>
    [("intent", PyJson.str e.1), ("confidence", PyJson.num 0.95),
     ("method", PyJson.str ("rule-based"))]
  | none =>
    if use_ai then classify_with_ai apiResponse jsonParse
    else information_request_fallback

/-! ## Concrete instances used by counterexamples and witnesses -/

/-- A library behaviour where every string parses but no number is valid
(`phonenumbers.parse` succeeds on any ten-digit string; `is_valid_number`
rejects numbers outside the regional numbering plan). -/
def invalid_lib : PhoneLib Unit :=
  ⟨fun _ => some (), fun _ => false, fun _ => ""⟩

/-- A library behaviour where parsing always raises
(`NumberParseException`). -/
def raise_lib : PhoneLib Unit :=
  ⟨fun _ => none, fun _ => false, fun _ => ""⟩

/-- A backend response that is a well-formed JSON object without the
demanded `intent`/`confidence` keys: the text `{"note": 1}`. -/
def malformed_content : String := "\x7b\x22note\x22: 1\x7d"

/-- `json.loads` behaviour on `malformed_content`. -/
def jsonParse_note : String → Option PyJson := fun s =>
  if s == malformed_content then some (.obj [(("note"), PyJson.num 1)])
  else none

/-- A `re.search` oracle under which no pattern matches (as on `"qqq"`). -/
def research_nomatch : String → String → Bool := fun _ _ => false

/-! ## Claims -/

/-- Claim C1 (code-bug evaluation). For the input `"I want to book a room"`,
`process_message` detects intent `"booking"` (the keyword-frequency
detector's name for the booking intent), but returns an empty
`missing_slots` list: the field is hard-coded to `[]`, contradicting the
repository's own test `test_booking_intent`, which asserts
`len(response["missing_slots"]) > 0` for exactly this message. -/
theorem c1_booking_missing_slots_empty :
    ((process_message dmInit ("I want to book a room") ("test_session_3")
        ("t0")).2.intent,
     (process_message dmInit ("I want to book a room") ("test_session_3")
        ("t0")).2.missing_slots)
      = ("booking", []) := rfl

/-- Claim C2. Along every sequence of `process_message` calls starting from a
fresh manager, every stored session satisfies
`turn_count == len(conversation_history)`; and a second `process_message`
call for the same `session_id` returns a `turn_count` one larger than the
first response's, whatever the starting state. -/
theorem c2_turn_count_invariant :
    (∀ msgs : List (String × String × String),
      TurnInv (run_messages dmInit msgs)) ∧
    (∀ (st : ManagerState) (m1 sid now1 m2 now2 : String),
      (process_message (process_message st m1 sid now1).1 m2 sid
          now2).2.turn_count
        = (process_message st m1 sid now1).2.turn_count + 1) := by
  constructor
  · exact fun msgs =>
      turnInv_run (fun p hp => absurd hp (List.not_mem_nil p)) msgs
  · intro st m1 sid now1 m2 now2
    rcases hq : dlookup (process_message st m1 sid now1).1.sessions sid
      with _ | s2
    · have h := process_lookup_turn st m1 sid now1
      rw [hq] at h
      simp at h
    · have h := process_lookup_turn st m1 sid now1
      rw [hq] at h
      have hs2 : s2.turn_count = (process_message st m1 sid now1).2.turn_count := by
        simpa using h
      rw [process_message_turn_some hq, hs2]

/-- Witness for claim C2 (second-call conjunct) on a fresh manager. -/
theorem c2_witness :
    (process_message (process_message dmInit ("hi") ("s2") ("t1")).1 ("hi")
        ("s2") ("t2")).2.turn_count
      = (process_message dmInit ("hi") ("s2") ("t1")).2.turn_count + 1 :=
  c2_turn_count_invariant.2 dmInit ("hi") ("s2") ("t1") ("hi") ("t2")

/-- Claim C3 (code-bug evaluation). `validate_entity` is not total on
`guest_count`: a non-numeric value makes `int(value)` raise `ValueError`
(modelled by `none`), although the docstring promises a `True`/`False`
result; the values 0 and 101 do yield `False` and the bounds 1 and 100
`True`. The last conjunct records a second divergence of the date branch:
the parsed date (midnight) is compared against `datetime.now()`, so a date
equal to the current day is rejected whenever the clock is past midnight,
although the claim accepts every date not strictly before the current
date. -/
theorem c3_validate_guest_count_raises :
    validate_entity ("guest_count") (.pstr "abc") ⟨2026, 10, 12, 43200000000⟩
        = none ∧
    validate_entity ("guest_count") (.pint 0) ⟨2026, 10, 12, 43200000000⟩
        = some false ∧
    validate_entity ("guest_count") (.pint 101) ⟨2026, 10, 12, 43200000000⟩
        = some false ∧
    validate_entity ("guest_count") (.pint 1) ⟨2026, 10, 12, 43200000000⟩
        = some true ∧
    validate_entity ("guest_count") (.pint 100) ⟨2026, 10, 12, 43200000000⟩
        = some true ∧
    validate_entity ("check_in_date") (.pstr "2026-10-12")
        ⟨2026, 10, 12, 43200000000⟩ = some false :=
  ⟨rfl, rfl, rfl, rfl, rfl, rfl⟩

/-- Claim C4. If some rule-tier pattern matches — equivalently, `find?` over
the pattern table locates a first intent one of whose patterns matches the
lower-cased text — then `classify` returns exactly that intent with
confidence 0.95 and method `"rule-based"`, for every backend configuration
and behaviour: the quantification over `use_ai`, `apiResponse` and
`jsonParse` expresses that the statistical backend is not consulted. -/
theorem c4_classify_rule_tier (research : String → String → Bool)
    (use_ai : Bool) (apiResponse : Option String)
    (jsonParse : String → Option PyJson) (text : String)
    (intent : String) (pats : List String)
    (hfirst : INTENT_PATTERNS.find?
        (fun e => e.2.any (fun p => research p (pyLower text)))
      = some (intent, pats)) :
    classify research use_ai apiResponse jsonParse text =
      [("intent", PyJson.str intent), ("confidence", PyJson.num 0.95),
       ("method", PyJson.str ("rule-based"))] := by
  simp [classify, hfirst]

/-- A `re.search` oracle under which exactly the first greeting pattern
matches (as it does on the text `"hello"`). -/
def research_greeting : String → String → Bool := fun p _ =>
  p == "\\b(hello|hi|hey|good\\s+(morning|afternoon|evening)|namaste|vanakkam)\\b"

/-- Witness for claim C4 at the text `"hello"`. -/
theorem c4_witness :
    classify research_greeting true none (fun _ => none) ("hello")
      = [("intent", PyJson.str ("greeting")), ("confidence", PyJson.num 0.95),
         ("method", PyJson.str ("rule-based"))] :=
  c4_classify_rule_tier research_greeting true none (fun _ => none) ("hello")
    ("greeting") (dget INTENT_PATTERNS ("greeting")) (by rfl)

/-- Claim C5. Whenever at least one keyword of the table occurs in the
lower-cased message, `detect_intent` returns the first intent in enumeration
order attaining the maximal keyword-match count, with confidence
`min(0.95, 0.7 + 0.1 * match_count)` for that maximal count; a later intent
with an equal count never overwrites it (`find?` selects the earliest entry
attaining the maximum). When no keyword matches at all, there is no intent
with a greatest keyword-occurrence count and the detector's separate default
applies (claim C10). -/
theorem c5_detect_intent_first_argmax (message _language : String)
    (e₀ : String × List String)
    (hpos : 0 < maxMatches (pyLower message) intents)
    (hfind : intents.find?
        (fun e => entryMatches (pyLower message) e
          == maxMatches (pyLower message) intents) = some e₀) :
    detect_intent message _language =
      ⟨e₀.1, min (0.95 : ℚ)
        (0.7 + (maxMatches (pyLower message) intents : ℚ) * 0.1)⟩ := by
  have h := (foldl_detectStep_char (pyLower message) intents
    ("general_inquiry") (0.5 : ℚ) 0).2 hpos e₀ hfind
  simp [detect_intent, h]

/-- Witness for claim C5 at `"book a room"`: `room_inquiry` and `booking`
both match one keyword; the earlier `room_inquiry` wins, with confidence
`min(0.95, 0.7 + 1 * 0.1) = 0.8`. -/
theorem c5_witness :
    detect_intent ("book a room") ("en") = ⟨"room_inquiry", (0.8 : ℚ)⟩ := by
  rw [c5_detect_intent_first_argmax ("book a room") ("en")
    (("room_inquiry"), dget intents ("room_inquiry")) (by decide) (by decide)]
  have hm : maxMatches (pyLower ("book a room")) intents = 1 := by decide
  rw [hm]
  simp only [IntentResult.mk.injEq]
  norm_num

/-- Claim C6 counterexample. With no rule match and a backend response that
is valid JSON but an object without the demanded keys (`{"note": 1}`), the
`try` block of `_classify_with_ai` completes without raising, so `classify`
returns that dict tagged `method = "ai-based"` — not the fixed
`error_fallback` dict the claim demands for every malformed response. -/
theorem c6_counterexample :
    classify research_nomatch true (some malformed_content) jsonParse_note
        ("qqq")
      = [("note", PyJson.num 1), ("method", PyJson.str ("ai-based"))] ∧
    classify research_nomatch true (some malformed_content) jsonParse_note
        ("qqq")
      ≠ information_request_error_fallback := by
  constructor
  · rfl
  · intro h
    have h2 : (2 : Nat) = 3 := congrArg List.length h
    omega

/-- Claim C6 (amended). When no rule-tier pattern matches, `classify` is
total and: with a configured backend it returns exactly the `error_fallback`
dict whenever the backend interaction raises — an exception during the API
call (network error, timeout), a non-JSON response, or a JSON response that
is not an object — while a successfully decoded JSON object is returned
with `method` set to `"ai-based"` even when it lacks the
`intent`/`confidence` keys; with no backend configured it returns exactly
the `fallback` dict. -/
theorem c6_classify_fallback (research : String → String → Bool)
    (text : String)
    (hnorule : INTENT_PATTERNS.find?
        (fun e => e.2.any (fun p => research p (pyLower text))) = none) :
    (∀ jsonParse, classify research true none jsonParse text
        = information_request_error_fallback) ∧
    (∀ (content : String) jsonParse, jsonParse (pyStrip content) = none →
      classify research true (some content) jsonParse text
        = information_request_error_fallback) ∧
    (∀ (content : String) jsonParse j, jsonParse (pyStrip content) = some j →
      isJsonObj j = false →
      classify research true (some content) jsonParse text
        = information_request_error_fallback) ∧
    (∀ (content : String) jsonParse fields,
      jsonParse (pyStrip content) = some (.obj fields) →
      classify research true (some content) jsonParse text
        = dset fields ("method") (PyJson.str ("ai-based"))) ∧
    (∀ apiResponse jsonParse,
      classify research false apiResponse jsonParse text
        = information_request_fallback) := by
  refine ⟨fun jsonParse => ?_, fun content jsonParse h => ?_,
    fun content jsonParse j h hobj => ?_, fun content jsonParse fields h => ?_,
    fun apiResponse jsonParse => ?_⟩
  · simp [classify, hnorule, classify_with_ai]
  · simp [classify, hnorule, classify_with_ai, h]
  · cases j with
    | obj fields => simp [isJsonObj] at hobj
    | arr elems => simp [classify, hnorule, classify_with_ai, h]
    | str s => simp [classify, hnorule, classify_with_ai, h]
    | num q => simp [classify, hnorule, classify_with_ai, h]
    | bool b => simp [classify, hnorule, classify_with_ai, h]
    | null => simp [classify, hnorule, classify_with_ai, h]
  · simp [classify, hnorule, classify_with_ai, h]
  · simp [classify, hnorule]

/-- Witness for claim C6 (no-backend tier) at the text `"qqq"`. -/
theorem c6_witness :
    classify research_nomatch false none (fun _ => none) ("qqq")
      = information_request_fallback :=
  (c6_classify_fallback research_nomatch ("qqq") (by rfl)).2.2.2.2 none
    (fun _ => none)

/-- Claim C7 counterexample. `"1234567890"` matches the first shape pattern
`\b\d{10}\b`, and under a library behaviour where parsing succeeds but
`is_valid_number` is false (the case the validity predicate exists for),
`_extract_phone` returns no phone number at all: the invalid-number case
executes no `return`, every pattern falls through, and the loop ends in
`None` — the claim says a match always produces some value. -/
theorem c7_counterexample :
    searchPhone phonePat1At ("1234567890") = some ("1234567890") ∧
    extract_phone invalid_lib ("1234567890") = none := ⟨rfl, rfl⟩

/-- One step of `_extract_phone`'s loop when the head pattern matches with
matched string `s`: digits-only when the parse raises, E.164 when the parse
succeeds and validates, and fall-through to the remaining patterns when the
parse succeeds but validation fails (no `return` is executed). -/
theorem tryPhonePatterns_cons_match {α : Type} (lib : PhoneLib α)
    (text s : String) (p : Bool → List Char → Option (List Char))
    (rest : List (Bool → List Char → Option (List Char)))
    (h : searchPhone p text = some s) :
    (lib.parse s = none →
      tryPhonePatterns lib text (p :: rest) = some (digitsOnly s)) ∧
    (∀ parsed, lib.parse s = some parsed → lib.is_valid_number parsed = true →
      tryPhonePatterns lib text (p :: rest) = some (lib.format_e164 parsed)) ∧
    (∀ parsed, lib.parse s = some parsed → lib.is_valid_number parsed = false →
      tryPhonePatterns lib text (p :: rest)
        = tryPhonePatterns lib text rest) := by
  refine ⟨fun hp => ?_, fun parsed hp hv => ?_, fun parsed hp hv => ?_⟩
  · simp [tryPhonePatterns, h, hp]
  · simp [tryPhonePatterns, h, hp, hv]
  · simp [tryPhonePatterns, h, hp, hv]

/-- One step of `_extract_phone`'s loop when the head pattern does not
match: the loop moves on to the remaining patterns. -/
theorem tryPhonePatterns_cons_nomatch {α : Type} (lib : PhoneLib α)
    (text : String) (p : Bool → List Char → Option (List Char))
    (rest : List (Bool → List Char → Option (List Char)))
    (h : searchPhone p text = none) :
    tryPhonePatterns lib text (p :: rest) = tryPhonePatterns lib text rest := by
  simp [tryPhonePatterns, h]

/-- Claim C7 (amended). Full characterisation of `_extract_phone` for every
text and every library behaviour, stage by stage over the three shape
patterns in source order: at each stage, if the pattern matches with matched
string `s`, the extractor returns the digits-only form of `s` when parsing
raises and the E.164 form when parsing succeeds and the number validates,
while a parsed-but-invalid number executes no `return` and the stage falls
through; if the pattern does not match the stage also falls through; after
the last stage the result is `None`. In particular every text matched by
some shape pattern — including texts matched only by the country-code or
grouped 3-3-4 shapes — is covered, and the extractor may still return no
phone number when every matching pattern's string parses to an invalid
number. -/
theorem c7_extract_phone_cases {α : Type} (lib : PhoneLib α) (text : String) :
    (∀ s, searchPhone phonePat1At text = some s →
      (lib.parse s = none → extract_phone lib text = some (digitsOnly s)) ∧
      (∀ parsed, lib.parse s = some parsed →
        lib.is_valid_number parsed = true →
        extract_phone lib text = some (lib.format_e164 parsed)) ∧
      (∀ parsed, lib.parse s = some parsed →
        lib.is_valid_number parsed = false →
        extract_phone lib text
          = tryPhonePatterns lib text [phonePat2At, phonePat3At])) ∧
    (searchPhone phonePat1At text = none →
      extract_phone lib text
        = tryPhonePatterns lib text [phonePat2At, phonePat3At]) ∧
    (∀ s, searchPhone phonePat2At text = some s →
      (lib.parse s = none →
        tryPhonePatterns lib text [phonePat2At, phonePat3At]
          = some (digitsOnly s)) ∧
      (∀ parsed, lib.parse s = some parsed →
        lib.is_valid_number parsed = true →
        tryPhonePatterns lib text [phonePat2At, phonePat3At]
          = some (lib.format_e164 parsed)) ∧
      (∀ parsed, lib.parse s = some parsed →
        lib.is_valid_number parsed = false →
        tryPhonePatterns lib text [phonePat2At, phonePat3At]
          = tryPhonePatterns lib text [phonePat3At])) ∧
    (searchPhone phonePat2At text = none →
      tryPhonePatterns lib text [phonePat2At, phonePat3At]
        = tryPhonePatterns lib text [phonePat3At]) ∧
    (∀ s, searchPhone phonePat3At text = some s →
      (lib.parse s = none →
        tryPhonePatterns lib text [phonePat3At] = some (digitsOnly s)) ∧
      (∀ parsed, lib.parse s = some parsed →
        lib.is_valid_number parsed = true →
        tryPhonePatterns lib text [phonePat3At]
          = some (lib.format_e164 parsed)) ∧
      (∀ parsed, lib.parse s = some parsed →
        lib.is_valid_number parsed = false →
        tryPhonePatterns lib text [phonePat3At] = none)) ∧
    (searchPhone phonePat3At text = none →
      tryPhonePatterns lib text [phonePat3At] = none) := by
  have hdef : extract_phone lib text
      = tryPhonePatterns lib text [phonePat1At, phonePat2At, phonePat3At] :=
    rfl
  refine ⟨fun s h => ?_, fun h => ?_, fun s h => ?_, fun h => ?_,
    fun s h => ?_, fun h => ?_⟩
  · rw [hdef]
    exact tryPhonePatterns_cons_match lib text s phonePat1At
      [phonePat2At, phonePat3At] h
  · rw [hdef]
    exact tryPhonePatterns_cons_nomatch lib text phonePat1At
      [phonePat2At, phonePat3At] h
  · exact tryPhonePatterns_cons_match lib text s phonePat2At [phonePat3At] h
  · exact tryPhonePatterns_cons_nomatch lib text phonePat2At [phonePat3At] h
  · exact tryPhonePatterns_cons_match lib text s phonePat3At [] h
  · exact tryPhonePatterns_cons_nomatch lib text phonePat3At [] h

/-- Witness for claim C7 on `"+911234567890"`, a text matched only by the
second (country-code) shape pattern: with a library whose parse always
raises, the first stage falls through and the second returns the digits-only
matched string. -/
theorem c7_witness :
    extract_phone raise_lib ("+911234567890") = some ("911234567890") :=
  (((c7_extract_phone_cases raise_lib ("+911234567890")).2.1 rfl).trans
    (((c7_extract_phone_cases raise_lib ("+911234567890")).2.2.1
      ("+911234567890") rfl).1 rfl)).trans rfl

/-- Claim C8 (amended). The session's stored `language` is written only when
the session is created: it equals the language detected for the session's
first message and is preserved unchanged by every later turn, while each
response's `language` field carries the language re-detected for the current
message. -/
theorem c8_session_language_amended :
    (∀ (st : ManagerState) (m sid now : String),
      dlookup st.sessions sid = none →
      (dlookup (process_message st m sid now).1.sessions sid).map
          Session.language
        = some (detect_language m)) ∧
    (∀ (st : ManagerState) (m sid now : String) (s : Session),
      dlookup st.sessions sid = some s →
      (dlookup (process_message st m sid now).1.sessions sid).map
          Session.language
        = some s.language) ∧
    (∀ (st : ManagerState) (m sid now : String),
      (process_message st m sid now).2.language = detect_language m) := by
  refine ⟨fun st m sid now h => process_lang_none h,
          fun st m sid now s h => process_lang_some h,
          fun st m sid now => ?_⟩
  rcases hq : dlookup st.sessions sid with _ | s <;>
    simp [process_message, hq]

/-- Witness for claim C8 (first-turn conjunct) on a fresh manager. -/
theorem c8_witness :
    (dlookup (process_message dmInit ("hello") ("w8") ("t")).1.sessions
        ("w8")).map Session.language
      = some (detect_language ("hello")) :=
  c8_session_language_amended.1 dmInit ("hello") ("w8") ("t") rfl

/-- Claim C8 counterexample. After an English first turn, a second turn
`"hola"` is re-detected as Spanish in the response, but the stored session
`language` remains `"en"`: it is not rewritten on every call. -/
theorem c8_counterexample :
    ((dlookup (process_message
        (process_message dmInit ("goodbye") ("s1") ("t1")).1
        ("hola") ("s1") ("t2")).1.sessions ("s1")).map Session.language
      = some ("en")) ∧
    detect_language ("hola") = "es" ∧ ("en" : String) ≠ "es" :=
  ⟨rfl, rfl, by decide⟩

/-- Claim C9. `clear_session` removes the session's state entirely; it is a
no-op (no error, registry unchanged) when the session does not exist; and a
subsequent `process_message` for the same id creates fresh state with
`turn_count = 1`. -/
theorem c9_clear_session (st : ManagerState) (sid : String) :
    dlookup (clear_session st sid).sessions sid = none ∧
    (dlookup st.sessions sid = none → clear_session st sid = st) ∧
    (∀ m now : String,
      (process_message (clear_session st sid) m sid now).2.turn_count = 1) := by
  refine ⟨dlookup_ddel_self _ _, fun h => ?_, fun m now => ?_⟩
  · show ManagerState.mk _ = st
    rw [ddel_of_lookup_none _ _ h]
  · exact process_message_turn_none (dlookup_ddel_self _ _)

/-- Witness for claim C9 on a fresh manager and the id `"sX"`. -/
theorem c9_witness :
    clear_session dmInit ("sX") = dmInit ∧
    (process_message (clear_session dmInit ("sX")) ("hello") ("sX")
        ("t")).2.turn_count = 1 :=
  ⟨(c9_clear_session dmInit ("sX")).2.1 rfl,
   (c9_clear_session dmInit ("sX")).2.2 ("hello") ("t")⟩

/-- Claim C10. When no keyword of any intent occurs in the lower-cased
message, `detect_intent` returns `general_inquiry` with confidence exactly
0.5 (the initial accumulator value, not the 0.7 the confidence formula would
give at zero matches), and `generate_response` maps `general_inquiry` to the
greeting phrase of the language's response table (falling back to the
English table for unknown languages). -/
theorem c10_no_keyword_default (message _language : String)
    (h : maxMatches (pyLower message) intents = 0) :
    detect_intent message _language = ⟨"general_inquiry", (0.5 : ℚ)⟩ ∧
    ∀ language : String,
      generate_response ("general_inquiry") language
        = dget (dgetD language_responses language
            (dget language_responses ("en"))) ("greeting") := by
  constructor
  · have h1 := (foldl_detectStep_char (pyLower message) intents
      ("general_inquiry") (0.5 : ℚ) 0).1 (le_of_eq h)
    simp [detect_intent, h1]
  · intro language
    rfl

/-- Witness for claim C10 at the keyword-free message `"zzz"`. -/
theorem c10_witness :
    detect_intent ("zzz") ("en") = ⟨"general_inquiry", (0.5 : ℚ)⟩ ∧
    generate_response ("general_inquiry") ("ru")
      = "Добро пожаловать в наш отель! Чем я могу вам помочь?" := by
  have h := c10_no_keyword_default ("zzz") ("en") (by decide)
  exact ⟨h.1, (h.2 ("ru")).trans rfl⟩

end HotelAI
